import Mathlib

/-!
Verification of the hand-stability assessment motion pipeline.

This file gives a shallow embedding of the three core stages of the
pipeline and proves properties about them:

* `core/config.py` : the configured tracked-finger list, score weights and
  normalization maxima (the numeric constants are embedded as exact
  rationals).
* `core/signal_processing.py` : displacement derivation
  (`compute_displacement_time_series`), RMS, tremor, drift, and the
  fatigue windowing logic (`compute_fatigue_metrics`).
* `core/scoring.py` : penalty normalization, weight renormalization and
  the final 0 to 100 stability score (`compute_stability_score`).

Timestamps and the scoring arithmetic are embedded over `ℚ` (Python float
arithmetic modelled exactly); displacement magnitudes, which involve a
square root, are embedded over `ℝ` with `Real.sqrt`.  Metric maps
(Python dicts built per finger) are embedded as association lists.
-/

namespace HandStability

/-! ## Configuration (core/config.py) -/

/-- The configured tracked-finger list, `config.FINGERS_TO_TRACK`. -/
def FINGERS_TO_TRACK : List String := ["THUMB", "INDEX", "MIDDLE"]

/-- The scoring configuration surface read by `core/scoring.py`:
weights and normalization maxima. -/
structure ScoringConfig where
  WEIGHT_TREMOR : ℚ
  WEIGHT_DRIFT : ℚ
  WEIGHT_FATIGUE : ℚ
  TREMOR_MAX_EXPECTED : ℚ
  DRIFT_MAX_EXPECTED : ℚ
  FATIGUE_MAX_EXPECTED : ℚ

/-- The values from `core/config.py`:
weights 0.4 / 0.3 / 0.3, maxima 0.05 / 0.1 / 2.0. -/
def default_config : ScoringConfig :=
  ⟨4/10, 3/10, 3/10, 1/20, 1/10, 2⟩

/-! ## Data model (type aliases of core/signal_processing.py) -/

/-- A raw sample is `(t, x, y)`. -/
abbrev RawTimeSeries := List (String × List (ℚ × ℝ × ℝ))

abbrev BaselinePositions := List (String × (ℝ × ℝ))

/-- A displacement sample is `(t, displacement)`. -/
abbrev DisplacementTimeSeries := List (String × List (ℚ × ℝ))

/-! ## Displacement deriver (compute_displacement_time_series) -/

/-- Body of the per-finger loop in `compute_displacement_time_series`:
`if not samples or baseline is None` the series is empty, otherwise each
sample `(t, x, y)` becomes `(t, sqrt(dx*dx + dy*dy))` with
`dx = x - x0`, `dy = y - y0`. -/
noncomputable def finger_series (samples : List (ℚ × ℝ × ℝ)) :
    Option (ℝ × ℝ) → List (ℚ × ℝ)
  | none => []
  | some (x0, y0) =>
    if samples = [] then []
    else samples.map fun s =>
      (s.1, Real.sqrt ((s.2.1 - x0) * (s.2.1 - x0) + (s.2.2 - y0) * (s.2.2 - y0)))

/-- `compute_displacement_time_series(raw_data, baseline_positions)`:
iterate over the tracked fingers, look each finger up in `raw_data`
(default `[]`) and in `baseline_positions` (default `None`), and store
one entry per tracked finger.  The finger list is a parameter so that the
configured value `FINGERS_TO_TRACK` can be instantiated. -/
noncomputable def compute_displacement_time_series :
    List String → RawTimeSeries → BaselinePositions → DisplacementTimeSeries
  | [], _, _ => []
  | f :: fs, raw_data, baseline_positions =>
    (f, finger_series ((List.lookup f raw_data).getD [])
          (List.lookup f baseline_positions)) ::
      compute_displacement_time_series fs raw_data baseline_positions

/-! ## Numeric helpers of core/signal_processing.py -/

/-- `_rms(values)`: 0.0 on an empty list, else `sqrt(mean(arr * arr))`. -/
noncomputable def rms (values : List ℝ) : ℝ :=
  if values = [] then 0
  else Real.sqrt ((values.map fun v => v * v).sum / values.length)

/-- `min(times)` (the Python builtin); 0 on an empty list, which the
source never hits because of its length guard. -/
def list_min : List ℚ → ℚ
  | [] => 0
  | t :: ts => ts.foldl min t

/-- `max(times)` (the Python builtin); 0 on an empty list. -/
def list_max : List ℚ → ℚ
  | [] => 0
  | t :: ts => ts.foldl max t

/-! ## Fatigue windowing (compute_fatigue_metrics) -/

/-- The mask-building loop of `compute_fatigue_metrics` for the long-test
branch (`total_span >= 20.0`): per time `t`,
`if t <= early_end` mark early, `elif t >= late_start` mark late, else
mark neither.  Returns the pair (early_mask, late_mask). -/
def long_masks (early_end late_start : ℚ) : List ℚ → List Bool × List Bool
  | [] => ([], [])
  | t :: ts =>
    match long_masks early_end late_start ts with
    | (em, lm) =>
      if t ≤ early_end then (true :: em, false :: lm)
      else if late_start ≤ t then (false :: em, true :: lm)
      else (false :: em, false :: lm)

/-- The mask-building loop of `compute_fatigue_metrics` for the fallback
branch (`total_span < 20.0`): `if t <= mid` mark early, else mark late. -/
def short_masks (mid : ℚ) : List ℚ → List Bool × List Bool
  | [] => ([], [])
  | t :: ts =>
    match short_masks mid ts with
    | (em, lm) =>
      if t ≤ mid then (true :: em, false :: lm)
      else (false :: em, true :: lm)

/-- The early/late window selection of `compute_fatigue_metrics`:
with `t_min = min(times)`, `t_max = max(times)` and
`total_span = t_max - t_min`, use fixed 10 s windows when
`total_span >= 20.0`, else split at the midpoint. -/
def window_masks (times : List ℚ) : List Bool × List Bool :=
  let t_min := list_min times
  let t_max := list_max times
  let total_span := t_max - t_min
  if 20 ≤ total_span then long_masks (t_min + 10) (t_max - 10) times
  else short_masks (t_min + total_span / 2) times

/-- `[d for d, m in zip(displacements, mask) if m]`. -/
def masked_values (values : List ℝ) (mask : List Bool) : List ℝ :=
  (values.zip mask).filterMap fun p => if p.2 then some p.1 else none

/-- The early-window displacement values of a series, as selected inside
`compute_fatigue_metrics`. -/
noncomputable def early_values (series : List (ℚ × ℝ)) : List ℝ :=
  masked_values (series.map Prod.snd) (window_masks (series.map Prod.fst)).1

/-- The late-window displacement values of a series, as selected inside
`compute_fatigue_metrics`. -/
noncomputable def late_values (series : List (ℚ × ℝ)) : List ℝ :=
  masked_values (series.map Prod.snd) (window_masks (series.map Prod.fst)).2

/-- The per-finger body of `compute_fatigue_metrics`: neutral 1.0 for a
series of fewer than 2 samples, for an empty early or late window, and
for `early_rms < 1e-6`; otherwise `late_rms / early_rms`. -/
noncomputable def fatigue_index (series : List (ℚ × ℝ)) : ℝ :=
  if series.length < 2 then 1
  else
    match window_masks (series.map Prod.fst) with
    | (early_mask, late_mask) =>
      if masked_values (series.map Prod.snd) early_mask = [] ∨
          masked_values (series.map Prod.snd) late_mask = [] then 1
      else if rms (masked_values (series.map Prod.snd) early_mask) < 1 / 1000000 then 1
      else
        rms (masked_values (series.map Prod.snd) late_mask) /
          rms (masked_values (series.map Prod.snd) early_mask)

/-! ## Metric extractors -/

/-- `compute_tremor_metrics`: per finger, the RMS of all displacement
values of its series. -/
noncomputable def compute_tremor_metrics (displacement_ts : DisplacementTimeSeries) :
    List (String × ℝ) :=
  displacement_ts.map fun p => (p.1, rms (p.2.map Prod.snd))

/-- `compute_drift_metrics`: per finger, 0.0 for a series of fewer than 2
samples, else last displacement minus first displacement. -/
noncomputable def compute_drift_metrics (displacement_ts : DisplacementTimeSeries) :
    List (String × ℝ) :=
  displacement_ts.map fun p =>
    (p.1, if p.2.length < 2 then 0
      else (p.2.getLastD ((0 : ℚ), (0 : ℝ))).2 - (p.2.headD ((0 : ℚ), (0 : ℝ))).2)

/-- `compute_fatigue_metrics`: per finger, the fatigue index of its
series. -/
noncomputable def compute_fatigue_metrics (displacement_ts : DisplacementTimeSeries) :
    List (String × ℝ) :=
  displacement_ts.map fun p => (p.1, fatigue_index p.2)

/-! ## Scoring (core/scoring.py) -/

/-- `_average_metric`: 0.0 on an empty map, else the arithmetic mean of
the values. -/
def average_metric (metric : List (String × ℚ)) : ℚ :=
  if metric = [] then 0 else (metric.map Prod.snd).sum / metric.length

/-- `float(max(0.0, min(1.0, penalty)))`. -/
def clamp01 (x : ℚ) : ℚ := max 0 (min 1 x)

/-- `_normalize_tremor`: divide by `max(TREMOR_MAX_EXPECTED, 1e-6)` and
clamp into [0, 1]. -/
def normalize_tremor (cfg : ScoringConfig) (avg_tremor : ℚ) : ℚ :=
  clamp01 (avg_tremor / max cfg.TREMOR_MAX_EXPECTED (1/1000000))

/-- `_normalize_drift`: divide the magnitude by
`max(DRIFT_MAX_EXPECTED, 1e-6)` and clamp into [0, 1]. -/
def normalize_drift (cfg : ScoringConfig) (avg_drift : ℚ) : ℚ :=
  clamp01 (|avg_drift| / max cfg.DRIFT_MAX_EXPECTED (1/1000000))

/-- `_normalize_fatigue`: 0 for `avg_fatigue <= 1.0`, else scale
`avg_fatigue - 1` by `max(FATIGUE_MAX_EXPECTED - 1.0, 1e-6)` and clamp
into [0, 1]. -/
def normalize_fatigue (cfg : ScoringConfig) (avg_fatigue : ℚ) : ℚ :=
  if avg_fatigue ≤ 1 then 0
  else clamp01 ((avg_fatigue - 1) / max (cfg.FATIGUE_MAX_EXPECTED - 1) (1/1000000))

/-- The weight-renormalization step of `compute_stability_score`: when
`abs(weight_sum - 1.0) > 1e-6` each weight is divided by the sum. -/
def renorm_weights (w_t w_d w_f : ℚ) : ℚ × ℚ × ℚ :=
  let weight_sum := w_t + w_d + w_f
  if 1/1000000 < |weight_sum - 1| then
    (w_t / weight_sum, w_d / weight_sum, w_f / weight_sum)
  else (w_t, w_d, w_f)

/-- The breakdown record returned by `compute_stability_score`. -/
structure Breakdown where
  avg_tremor : ℚ
  avg_drift : ℚ
  avg_fatigue : ℚ
  penalty_tremor : ℚ
  penalty_drift : ℚ
  penalty_fatigue : ℚ
  weighted_penalty : ℚ

/-- `compute_stability_score(tremor, drift, fatigue)`: averages, penalty
normalization, weight renormalization, weighted combination, and the
clamped score `max(0, min(100, 100 * (1 - weighted_penalty)))`. -/
def compute_stability_score (cfg : ScoringConfig)
    (tremor drift fatigue : List (String × ℚ)) : ℚ × Breakdown :=
  let avg_tremor := average_metric tremor
  let avg_drift := average_metric drift
  let avg_fatigue := average_metric fatigue
  let penalty_tremor := normalize_tremor cfg avg_tremor
  let penalty_drift := normalize_drift cfg avg_drift
  let penalty_fatigue := normalize_fatigue cfg avg_fatigue
  let w := renorm_weights cfg.WEIGHT_TREMOR cfg.WEIGHT_DRIFT cfg.WEIGHT_FATIGUE
  let weighted_penalty :=
    w.1 * penalty_tremor + w.2.1 * penalty_drift + w.2.2 * penalty_fatigue
  let stability_score := max 0 (min 100 (100 * (1 - weighted_penalty)))
  (stability_score,
   ⟨avg_tremor, avg_drift, avg_fatigue, penalty_tremor, penalty_drift,
    penalty_fatigue, weighted_penalty⟩)

/-! ## Concrete data used in boundary analyses -/

/-- A configuration whose tremor normalization maximum is zero. -/
def zero_tremor_config : ScoringConfig := ⟨4/10, 3/10, 3/10, 0, 1/10, 2⟩

/-- A configuration with the default maxima and the given weights. -/
def cfg_w (w_t w_d w_f : ℚ) : ScoringConfig := ⟨w_t, w_d, w_f, 1/20, 1/10, 2⟩

/-- 21 evenly spaced timestamps spanning exactly 20 seconds. -/
def t21 : List ℚ :=
  [0, 1, 2, 3, 4, 5, 6, 7, 8, 9, 10, 11, 12, 13, 14, 15, 16, 17, 18, 19, 20]

/-- A displacement series spanning 25 seconds with a sample at t = 12,
strictly inside the dead zone between t_min + 10 and t_max - 10. -/
noncomputable def s25 : List (ℚ × ℝ) := [(0, 1), (12, 2), (25, 3)]

/-! ## Helper lemmas -/

lemma clamp01_nonneg (x : ℚ) : 0 ≤ clamp01 x := le_max_left 0 _

lemma clamp01_le_one (x : ℚ) : clamp01 x ≤ 1 :=
  max_le (by norm_num) (min_le_left 1 x)

lemma normalize_tremor_nonneg (cfg : ScoringConfig) (a : ℚ) :
    0 ≤ normalize_tremor cfg a := clamp01_nonneg _

lemma normalize_tremor_le_one (cfg : ScoringConfig) (a : ℚ) :
    normalize_tremor cfg a ≤ 1 := clamp01_le_one _

lemma normalize_drift_nonneg (cfg : ScoringConfig) (a : ℚ) :
    0 ≤ normalize_drift cfg a := clamp01_nonneg _

lemma normalize_drift_le_one (cfg : ScoringConfig) (a : ℚ) :
    normalize_drift cfg a ≤ 1 := clamp01_le_one _

lemma normalize_fatigue_nonneg (cfg : ScoringConfig) (a : ℚ) :
    0 ≤ normalize_fatigue cfg a := by
  unfold normalize_fatigue
  split
  · exact le_refl 0
  · exact clamp01_nonneg _

lemma normalize_fatigue_le_one (cfg : ScoringConfig) (a : ℚ) :
    normalize_fatigue cfg a ≤ 1 := by
  unfold normalize_fatigue
  split
  · norm_num
  · exact clamp01_le_one _

lemma long_masks_fst (e l : ℚ) (ts : List ℚ) :
    (long_masks e l ts).1 = ts.map fun t => decide (t ≤ e) := by
  induction ts with
  | nil => rfl
  | cons t ts ih =>
    by_cases h1 : t ≤ e
    · simp [long_masks, h1, ih]
    · by_cases h2 : l ≤ t <;> simp [long_masks, h1, h2, ih]

lemma long_masks_snd (e l : ℚ) (ts : List ℚ) :
    (long_masks e l ts).2 = ts.map fun t => decide (¬ t ≤ e ∧ l ≤ t) := by
  induction ts with
  | nil => rfl
  | cons t ts ih =>
    by_cases h1 : t ≤ e
    · simp [long_masks, h1, ih]
    · by_cases h2 : l ≤ t
      · simp [long_masks, h1, h2, ih, lt_of_not_le h1]
      · simp [long_masks, h1, h2, ih]

lemma short_masks_fst (m : ℚ) (ts : List ℚ) :
    (short_masks m ts).1 = ts.map fun t => decide (t ≤ m) := by
  induction ts with
  | nil => rfl
  | cons t ts ih => by_cases h1 : t ≤ m <;> simp [short_masks, h1, ih]

lemma short_masks_snd (m : ℚ) (ts : List ℚ) :
    (short_masks m ts).2 = ts.map fun t => decide (¬ t ≤ m) := by
  induction ts with
  | nil => rfl
  | cons t ts ih =>
    by_cases h1 : t ≤ m
    · simp [short_masks, h1, ih]
    · simp [short_masks, h1, ih, lt_of_not_le h1]

lemma cdts_lookup (fingers : List String) (raw : RawTimeSeries)
    (base : BaselinePositions) (f : String) (hf : f ∈ fingers) :
    List.lookup f (compute_displacement_time_series fingers raw base) =
      some (finger_series ((List.lookup f raw).getD []) (List.lookup f base)) := by
  induction fingers with
  | nil => cases hf
  | cons g gs ih =>
    by_cases hfg : f = g
    · subst hfg
      simp [compute_displacement_time_series, List.lookup]
    · have hb : (f == g) = false := beq_eq_false_iff_ne.mpr hfg
      rcases List.mem_cons.mp hf with h | h
      · exact absurd h hfg
      · simpa [compute_displacement_time_series, List.lookup, hb] using ih h

lemma cdts_keys (fingers : List String) (raw : RawTimeSeries)
    (base : BaselinePositions) :
    (compute_displacement_time_series fingers raw base).map Prod.fst = fingers := by
  induction fingers with
  | nil => rfl
  | cons g gs ih => simp [compute_displacement_time_series, ih]

lemma window_masks_01 : window_masks [(0 : ℚ), 1] = ([true, false], [false, true]) := by
  norm_num [window_masks, list_min, list_max, short_masks]

lemma rms_one : rms [(1 : ℝ)] = 1 := by simp [rms]

/-! ## Claims about the fatigue windowing -/

/--
Claim C1 (amended).  For every displacement series with at least 2
samples given to the fatigue extractor: if the time span is at least
20.0 seconds, the early window consists of exactly the samples with
`t ≤ t_min + 10.0`, and the late window of exactly the samples with
`t > t_min + 10.0` and `t ≥ t_max − 10.0` (the elif of the source keeps
a sample that qualifies for both windows only in the early one), with
samples strictly between the two windows in neither; otherwise the split
is at `mid = t_min + span/2`, samples with `t ≤ mid` are early and all
remaining samples are late, and no sample is excluded.
-/
theorem claim_C1 (series : List (ℚ × ℝ)) (h : 2 ≤ series.length) :
    (20 ≤ list_max (series.map Prod.fst) - list_min (series.map Prod.fst) →
      (window_masks (series.map Prod.fst)).1 =
        (series.map Prod.fst).map
          (fun t => decide (t ≤ list_min (series.map Prod.fst) + 10)) ∧
      (window_masks (series.map Prod.fst)).2 =
        (series.map Prod.fst).map
          (fun t => decide (¬ t ≤ list_min (series.map Prod.fst) + 10 ∧
            list_max (series.map Prod.fst) - 10 ≤ t))) ∧
    (list_max (series.map Prod.fst) - list_min (series.map Prod.fst) < 20 →
      (window_masks (series.map Prod.fst)).1 =
        (series.map Prod.fst).map
          (fun t => decide (t ≤ list_min (series.map Prod.fst) +
            (list_max (series.map Prod.fst) - list_min (series.map Prod.fst)) / 2)) ∧
      (window_masks (series.map Prod.fst)).2 =
        (series.map Prod.fst).map
          (fun t => decide (¬ t ≤ list_min (series.map Prod.fst) +
            (list_max (series.map Prod.fst) - list_min (series.map Prod.fst)) / 2))) := by
  constructor
  · intro hspan
    have hw : window_masks (series.map Prod.fst) =
        long_masks (list_min (series.map Prod.fst) + 10)
          (list_max (series.map Prod.fst) - 10) (series.map Prod.fst) := by
      simp only [window_masks]
      rw [if_pos hspan]
    rw [hw]
    exact ⟨long_masks_fst _ _ _, long_masks_snd _ _ _⟩
  · intro hspan
    have hw : window_masks (series.map Prod.fst) =
        short_masks (list_min (series.map Prod.fst) +
          (list_max (series.map Prod.fst) - list_min (series.map Prod.fst)) / 2)
          (series.map Prod.fst) := by
      simp only [window_masks]
      rw [if_neg (not_le.mpr hspan)]
    rw [hw]
    exact ⟨short_masks_fst _ _, short_masks_snd _ _⟩

/--
Claim C1, counterexample to the original statement.  On the series with
times 0, 10, 20 the span is exactly 20, and the sample at t = 10
satisfies `t ≥ t_max − 10`, yet its late-mask entry is false (the elif
assigned it to the early window), so the late window is not exactly the
samples with `t ≥ t_max − 10.0`.
-/
theorem claim_C1_counterexample :
    2 ≤ ([((0 : ℚ), (1 : ℝ)), (10, 1), (20, 1)] : List (ℚ × ℝ)).length ∧
    20 ≤ list_max ([((0 : ℚ), (1 : ℝ)), (10, 1), (20, 1)].map Prod.fst) -
        list_min ([((0 : ℚ), (1 : ℝ)), (10, 1), (20, 1)].map Prod.fst) ∧
    list_max ([((0 : ℚ), (1 : ℝ)), (10, 1), (20, 1)].map Prod.fst) - 10 ≤ (10 : ℚ) ∧
    (window_masks ([((0 : ℚ), (1 : ℝ)), (10, 1), (20, 1)].map Prod.fst)).2 =
      [false, false, true] := by
  have hmin : list_min ([((0 : ℚ), (1 : ℝ)), (10, 1), (20, 1)].map Prod.fst) = 0 := by
    norm_num [list_min, min_def]
  have hmax : list_max ([((0 : ℚ), (1 : ℝ)), (10, 1), (20, 1)].map Prod.fst) = 20 := by
    norm_num [list_max, max_def]
  have hw : window_masks ([((0 : ℚ), (1 : ℝ)), (10, 1), (20, 1)].map Prod.fst) =
      long_masks (0 + 10) (20 - 10)
        ([((0 : ℚ), (1 : ℝ)), (10, 1), (20, 1)].map Prod.fst) := by
    simp only [window_masks, hmin, hmax]
    norm_num
  refine ⟨by norm_num, ?_, ?_, ?_⟩
  · rw [hmin, hmax]; norm_num
  · rw [hmax]; norm_num
  · rw [hw, long_masks_snd]
    norm_num

/--
Claim C1, witness.  On the series with times 0 and 30 (span 30 ≥ 20) the
early window holds exactly the first sample and the late window exactly
the second.
-/
theorem claim_C1_witness :
    (window_masks ([((0 : ℚ), (0 : ℝ)), (30, 0)].map Prod.fst)).1 = [true, false] ∧
    (window_masks ([((0 : ℚ), (0 : ℝ)), (30, 0)].map Prod.fst)).2 = [false, true] := by
  have hsp : 20 ≤ list_max ([((0 : ℚ), (0 : ℝ)), (30, 0)].map Prod.fst) -
      list_min ([((0 : ℚ), (0 : ℝ)), (30, 0)].map Prod.fst) := by
    norm_num [list_min, list_max, min_def, max_def]
  have h := (claim_C1 [((0 : ℚ), (0 : ℝ)), (30, 0)] (by norm_num)).1 hsp
  constructor
  · rw [h.1]; norm_num [list_min, min_def]
  · rw [h.2]; norm_num [list_min, list_max, min_def, max_def]

/--
Claim C3 (amended).  The fatigue index equals 1.0 when the series has
fewer than 2 samples, or the early or late window is empty, or the RMS
of the early window is below 1e-6; in every other case it equals
RMS(late window) / RMS(early window) with no upper clamp applied — a
value that can itself equal 1.0 (for example for a constant-amplitude
series), so 1.0 is not exclusive to the guard cases.
-/
theorem claim_C3 (series : List (ℚ × ℝ)) :
    fatigue_index series =
      if series.length < 2 then 1
      else if early_values series = [] ∨ late_values series = [] then 1
      else if rms (early_values series) < 1 / 1000000 then 1
      else rms (late_values series) / rms (early_values series) := by
  rcases hw : window_masks (series.map Prod.fst) with ⟨em, lm⟩
  simp only [fatigue_index, early_values, late_values, hw]

/--
Claim C3, counterexample to the original statement.  For the constant
series [(0, 1), (1, 1)] none of the guard conditions holds (2 samples,
both windows nonempty, early RMS = 1 ≥ 1e-6), yet the fatigue index is
exactly 1.0 (the ratio RMS(late)/RMS(early) = 1/1), so the index is not
1.0 "exactly when" a guard condition holds.
-/
theorem claim_C3_counterexample :
    fatigue_index [((0 : ℚ), (1 : ℝ)), (1, 1)] = 1 ∧
    ¬ (([((0 : ℚ), (1 : ℝ)), (1, 1)] : List (ℚ × ℝ)).length < 2) ∧
    early_values [((0 : ℚ), (1 : ℝ)), (1, 1)] ≠ [] ∧
    late_values [((0 : ℚ), (1 : ℝ)), (1, 1)] ≠ [] ∧
    ¬ (rms (early_values [((0 : ℚ), (1 : ℝ)), (1, 1)]) < 1 / 1000000) := by
  have hE : early_values [((0 : ℚ), (1 : ℝ)), (1, 1)] = [(1 : ℝ)] := by
    simp only [early_values, List.map_cons, List.map_nil, window_masks_01]
    rfl
  have hL : late_values [((0 : ℚ), (1 : ℝ)), (1, 1)] = [(1 : ℝ)] := by
    simp only [late_values, List.map_cons, List.map_nil, window_masks_01]
    rfl
  have hfi : fatigue_index [((0 : ℚ), (1 : ℝ)), (1, 1)] = 1 := by
    have hmv : masked_values [(1 : ℝ), 1] [true, false] = [(1 : ℝ)] := rfl
    have hmv2 : masked_values [(1 : ℝ), 1] [false, true] = [(1 : ℝ)] := rfl
    simp only [fatigue_index, List.map_cons, List.map_nil, window_masks_01, hmv, hmv2,
      rms_one]
    norm_num
  refine ⟨hfi, by norm_num, ?_, ?_, ?_⟩
  · rw [hE]; simp
  · rw [hL]; simp
  · rw [hE, rms_one]; norm_num

/--
Claim C7 (amended).  For the displacement series of 21 evenly spaced
samples spanning exactly 20.0 seconds, the early window contains exactly
11 samples and the late window exactly 10 samples: the midpoint sample
at `t = t_min + 10.0` is counted only in the early window (the elif
produces no overlap at the boundary).  For a series spanning 25 seconds,
a sample strictly between `t_min + 10.0` and `t_max − 10.0` is excluded
from both windows' RMS computations.
-/
theorem claim_C7 :
    list_max t21 - list_min t21 = 20 ∧
    (window_masks t21).1.count true = 11 ∧
    (window_masks t21).2.count true = 10 ∧
    (window_masks t21).1.getD 10 false = true ∧
    (window_masks t21).2.getD 10 false = false ∧
    list_max (s25.map Prod.fst) - list_min (s25.map Prod.fst) = 25 ∧
    early_values s25 = [(1 : ℝ)] ∧
    late_values s25 = [(3 : ℝ)] := by
  have hmin : list_min t21 = 0 := by norm_num [t21, list_min, min_def]
  have hmax : list_max t21 = 20 := by norm_num [t21, list_max, max_def]
  have hw : window_masks t21 = long_masks (0 + 10) (20 - 10) t21 := by
    simp only [window_masks, hmin, hmax]
    norm_num
  have hmin25 : list_min (s25.map Prod.fst) = 0 := by
    norm_num [s25, list_min, min_def]
  have hmax25 : list_max (s25.map Prod.fst) = 25 := by
    norm_num [s25, list_max, max_def]
  have hw25 : window_masks (s25.map Prod.fst) =
      long_masks (0 + 10) (25 - 10) (s25.map Prod.fst) := by
    simp only [window_masks, hmin25, hmax25]
    norm_num
  have hm25 : long_masks ((0 : ℚ) + 10) (25 - 10) (s25.map Prod.fst) =
      ([true, false, false], [false, false, true]) := by
    norm_num [s25, long_masks]
  refine ⟨by rw [hmin, hmax]; norm_num, ?_, ?_, ?_, ?_, by rw [hmin25, hmax25]; norm_num, ?_, ?_⟩
  · rw [hw, long_masks_fst]; norm_num [t21, List.count_cons]
  · rw [hw, long_masks_snd]; norm_num [t21, List.count_cons]
  · rw [hw, long_masks_fst]; norm_num [t21]
  · rw [hw, long_masks_snd]; norm_num [t21]
  · simp only [early_values, hw25, hm25]
    simp only [s25, List.map_cons, List.map_nil]
    rfl
  · simp only [late_values, hw25, hm25]
    simp only [s25, List.map_cons, List.map_nil]
    rfl

/--
Claim C7, counterexample to the original statement.  The 21-sample
series spanning exactly 20 seconds yields a late window of 10 samples,
not 11: the midpoint sample at t = 10 is not double-counted (its
late-mask entry is false).
-/
theorem claim_C7_counterexample :
    list_max t21 - list_min t21 = 20 ∧
    ¬ ((window_masks t21).2.count true = 11) ∧
    ¬ ((window_masks t21).2.getD 10 false = true) := by
  have hmin : list_min t21 = 0 := by norm_num [t21, list_min, min_def]
  have hmax : list_max t21 = 20 := by norm_num [t21, list_max, max_def]
  have hw : window_masks t21 = long_masks (0 + 10) (20 - 10) t21 := by
    simp only [window_masks, hmin, hmax]
    norm_num
  refine ⟨by rw [hmin, hmax]; norm_num, ?_, ?_⟩
  · rw [hw, long_masks_snd]; norm_num [t21, List.count_cons]
  · rw [hw, long_masks_snd]; norm_num [t21]

/-! ## Claims about the displacement deriver and the key sets -/

/--
Claim C2 (confirmed).  For every raw-trajectory map and baseline map and
every finger in the configured tracked set: if that finger's trajectory
is empty or missing, or it has no baseline, the output contains that
finger's key mapped to the empty sequence; otherwise the output sequence
is the input sample sequence mapped in order, sample by sample, with
`(t, x, y)` sent to `(t, sqrt((x - x0)^2 + (y - y0)^2))` where
`(x0, y0)` is the finger's baseline.
-/
theorem claim_C2 (raw : RawTimeSeries) (base : BaselinePositions) (f : String)
    (hf : f ∈ FINGERS_TO_TRACK) :
    (((List.lookup f raw).getD [] = [] ∨ List.lookup f base = none) →
      List.lookup f (compute_displacement_time_series FINGERS_TO_TRACK raw base) =
        some []) ∧
    (∀ samples x0 y0, List.lookup f raw = some samples →
      List.lookup f base = some (x0, y0) →
      List.lookup f (compute_displacement_time_series FINGERS_TO_TRACK raw base) =
        some (samples.map fun s =>
          (s.1, Real.sqrt ((s.2.1 - x0) ^ 2 + (s.2.2 - y0) ^ 2)))) := by
  constructor
  · intro hsb
    rw [cdts_lookup _ _ _ _ hf]
    rcases hsb with hs | hb
    · rw [hs]
      cases hbase : List.lookup f base with
      | none => rfl
      | some b =>
        obtain ⟨x0, y0⟩ := b
        simp [finger_series]
    · rw [hb]
      rfl
  · intro samples x0 y0 hraw hbase
    rw [cdts_lookup _ _ _ _ hf, hraw, hbase]
    simp only [Option.getD_some]
    by_cases hsamp : samples = []
    · subst hsamp
      simp [finger_series]
    · have hmap : (samples.map fun s =>
          ((s.1 : ℚ), Real.sqrt ((s.2.1 - x0) * (s.2.1 - x0) + (s.2.2 - y0) * (s.2.2 - y0)))) =
            samples.map fun s => (s.1, Real.sqrt ((s.2.1 - x0) ^ 2 + (s.2.2 - y0) ^ 2)) := by
        refine List.map_congr_left fun s _ => ?_
        have harg : (s.2.1 - x0) * (s.2.1 - x0) + (s.2.2 - y0) * (s.2.2 - y0) =
            (s.2.1 - x0) ^ 2 + (s.2.2 - y0) ^ 2 := by ring
        rw [harg]
      simp only [finger_series, if_neg hsamp, hmap]

/--
Claim C2, witness.  With a single THUMB sample at (0.5, 0.5) and a THUMB
baseline at (0, 0) the deriver stores the mapped sequence; with no data
at all, THUMB is mapped to the empty sequence.
-/
theorem claim_C2_witness :
    List.lookup "THUMB"
      (compute_displacement_time_series FINGERS_TO_TRACK
        [("THUMB", [((0 : ℚ), (1/2 : ℝ), (1/2 : ℝ))])]
        [("THUMB", ((0 : ℝ), (0 : ℝ)))]) =
      some [((0 : ℚ), Real.sqrt ((1/2 - 0) ^ 2 + (1/2 - 0) ^ 2))] ∧
    List.lookup "THUMB" (compute_displacement_time_series FINGERS_TO_TRACK [] []) =
      some [] := by
  constructor
  · exact (claim_C2 [("THUMB", [((0 : ℚ), (1/2 : ℝ), (1/2 : ℝ))])]
      [("THUMB", ((0 : ℝ), (0 : ℝ)))] "THUMB" (by simp [FINGERS_TO_TRACK])).2
      [((0 : ℚ), (1/2 : ℝ), (1/2 : ℝ))] 0 0 rfl rfl
  · exact (claim_C2 [] [] "THUMB" (by simp [FINGERS_TO_TRACK])).1 (Or.inl rfl)

/--
Claim C9 (confirmed).  The displacement deriver's output key list is
exactly the tracked-finger list it iterates (so keys of the input maps
outside the tracked set never appear), and each metric extractor
preserves the key list of the displacement map it is given; hence the
composed pipeline's metric maps have exactly the configured tracked
fingers as keys.
-/
theorem claim_C9 (fingers : List String) (raw : RawTimeSeries)
    (base : BaselinePositions) (displacement_ts : DisplacementTimeSeries) :
    (compute_displacement_time_series fingers raw base).map Prod.fst = fingers ∧
    (compute_tremor_metrics displacement_ts).map Prod.fst =
      displacement_ts.map Prod.fst ∧
    (compute_drift_metrics displacement_ts).map Prod.fst =
      displacement_ts.map Prod.fst ∧
    (compute_fatigue_metrics displacement_ts).map Prod.fst =
      displacement_ts.map Prod.fst ∧
    (compute_tremor_metrics
      (compute_displacement_time_series FINGERS_TO_TRACK raw base)).map Prod.fst =
      FINGERS_TO_TRACK ∧
    (compute_drift_metrics
      (compute_displacement_time_series FINGERS_TO_TRACK raw base)).map Prod.fst =
      FINGERS_TO_TRACK ∧
    (compute_fatigue_metrics
      (compute_displacement_time_series FINGERS_TO_TRACK raw base)).map Prod.fst =
      FINGERS_TO_TRACK := by
  have hkeys : ∀ d : DisplacementTimeSeries,
      (compute_tremor_metrics d).map Prod.fst = d.map Prod.fst := by
    intro d
    simp [compute_tremor_metrics, List.map_map, Function.comp]
  have hkeysD : ∀ d : DisplacementTimeSeries,
      (compute_drift_metrics d).map Prod.fst = d.map Prod.fst := by
    intro d
    simp [compute_drift_metrics, List.map_map, Function.comp]
  have hkeysF : ∀ d : DisplacementTimeSeries,
      (compute_fatigue_metrics d).map Prod.fst = d.map Prod.fst := by
    intro d
    simp [compute_fatigue_metrics, List.map_map, Function.comp]
  refine ⟨cdts_keys fingers raw base, hkeys displacement_ts, hkeysD displacement_ts,
    hkeysF displacement_ts, ?_, ?_, ?_⟩
  · rw [hkeys, cdts_keys]
  · rw [hkeysD, cdts_keys]
  · rw [hkeysF, cdts_keys]

/-! ## Claims about the scorer -/

lemma renorm_weights_far (w_t w_d w_f : ℚ)
    (h : 1/1000000 < |w_t + w_d + w_f - 1|) :
    renorm_weights w_t w_d w_f =
      (w_t / (w_t + w_d + w_f), w_d / (w_t + w_d + w_f), w_f / (w_t + w_d + w_f)) := by
  simp only [renorm_weights]
  rw [if_pos h]

lemma renorm_weights_near (w_t w_d w_f : ℚ)
    (h : ¬ (1/1000000 < |w_t + w_d + w_f - 1|)) :
    renorm_weights w_t w_d w_f = (w_t, w_d, w_f) := by
  simp only [renorm_weights]
  rw [if_neg h]

lemma normalize_tremor_cfg_w (a b c x : ℚ) :
    normalize_tremor (cfg_w a b c) x = normalize_tremor default_config x := rfl

lemma normalize_drift_cfg_w (a b c x : ℚ) :
    normalize_drift (cfg_w a b c) x = normalize_drift default_config x := rfl

lemma normalize_fatigue_cfg_w (a b c x : ℚ) :
    normalize_fatigue (cfg_w a b c) x = normalize_fatigue default_config x := rfl

lemma cfg_w_wt (a b c : ℚ) : (cfg_w a b c).WEIGHT_TREMOR = a := rfl

lemma cfg_w_wd (a b c : ℚ) : (cfg_w a b c).WEIGHT_DRIFT = b := rfl

lemma cfg_w_wf (a b c : ℚ) : (cfg_w a b c).WEIGHT_FATIGUE = c := rfl

/--
Claim C4 (confirmed).  For every input to the stability scorer under the
configured weights and maxima, each of penalty_tremor, penalty_drift,
penalty_fatigue and the weighted penalty in the breakdown lies in
[0, 1], and the returned stability score lies in [0, 100].
-/
theorem claim_C4 (tremor drift fatigue : List (String × ℚ)) :
    0 ≤ (compute_stability_score default_config tremor drift fatigue).2.penalty_tremor ∧
    (compute_stability_score default_config tremor drift fatigue).2.penalty_tremor ≤ 1 ∧
    0 ≤ (compute_stability_score default_config tremor drift fatigue).2.penalty_drift ∧
    (compute_stability_score default_config tremor drift fatigue).2.penalty_drift ≤ 1 ∧
    0 ≤ (compute_stability_score default_config tremor drift fatigue).2.penalty_fatigue ∧
    (compute_stability_score default_config tremor drift fatigue).2.penalty_fatigue ≤ 1 ∧
    0 ≤ (compute_stability_score default_config tremor drift fatigue).2.weighted_penalty ∧
    (compute_stability_score default_config tremor drift fatigue).2.weighted_penalty ≤ 1 ∧
    0 ≤ (compute_stability_score default_config tremor drift fatigue).1 ∧
    (compute_stability_score default_config tremor drift fatigue).1 ≤ 100 := by
  have hT1 := normalize_tremor_nonneg default_config (average_metric tremor)
  have hT2 := normalize_tremor_le_one default_config (average_metric tremor)
  have hD1 := normalize_drift_nonneg default_config (average_metric drift)
  have hD2 := normalize_drift_le_one default_config (average_metric drift)
  have hF1 := normalize_fatigue_nonneg default_config (average_metric fatigue)
  have hF2 := normalize_fatigue_le_one default_config (average_metric fatigue)
  have hrw : renorm_weights default_config.WEIGHT_TREMOR default_config.WEIGHT_DRIFT
      default_config.WEIGHT_FATIGUE = ((4 : ℚ)/10, (3 : ℚ)/10, (3 : ℚ)/10) := by
    norm_num [renorm_weights, default_config]
  simp only [compute_stability_score, hrw]
  refine ⟨hT1, hT2, hD1, hD2, hF1, hF2, ?_, ?_, le_max_left _ _,
    max_le (by norm_num) (min_le_left _ _)⟩
  · have h1 := mul_nonneg (show (0 : ℚ) ≤ 4/10 by norm_num) hT1
    have h2 := mul_nonneg (show (0 : ℚ) ≤ 3/10 by norm_num) hD1
    have h3 := mul_nonneg (show (0 : ℚ) ≤ 3/10 by norm_num) hF1
    linarith
  · linarith

/--
Claim C5 (confirmed).  The drift penalty under the configured maxima is
`clamp(|avg_drift| / drift_max, 0, 1)`, so opposite-sign drifts of equal
magnitude yield the same penalty; the fatigue penalty is 0 for
`avg_fatigue ≤ 1.0` and `clamp((avg_fatigue − 1)/(fatigue_max − 1), 0, 1)`
otherwise.
-/
theorem claim_C5 (a b : ℚ) :
    normalize_drift default_config a =
      clamp01 (|a| / default_config.DRIFT_MAX_EXPECTED) ∧
    normalize_drift default_config (-a) = normalize_drift default_config a ∧
    (b ≤ 1 → normalize_fatigue default_config b = 0) ∧
    (1 < b → normalize_fatigue default_config b =
      clamp01 ((b - 1) / (default_config.FATIGUE_MAX_EXPECTED - 1))) := by
  have hmax : max default_config.DRIFT_MAX_EXPECTED (1/1000000 : ℚ) =
      default_config.DRIFT_MAX_EXPECTED := by
    norm_num [default_config]
  have hmaxf : max (default_config.FATIGUE_MAX_EXPECTED - 1) (1/1000000 : ℚ) =
      default_config.FATIGUE_MAX_EXPECTED - 1 := by
    norm_num [default_config]
  refine ⟨?_, ?_, ?_, ?_⟩
  · simp only [normalize_drift]
    rw [hmax]
  · simp only [normalize_drift]
    rw [abs_neg]
  · intro hb
    simp only [normalize_fatigue]
    rw [if_pos hb]
  · intro hb
    simp only [normalize_fatigue]
    rw [if_neg (not_le.mpr hb), hmaxf]

/--
Claim C5, witness.  A fatigue average of 1.5 gets the linear-ramp
penalty, and drift averages 0.05 and -0.05 get the same penalty.
-/
theorem claim_C5_witness :
    normalize_fatigue default_config (3/2) =
      clamp01 ((3/2 - 1) / (default_config.FATIGUE_MAX_EXPECTED - 1)) ∧
    normalize_drift default_config (-(1/20)) = normalize_drift default_config (1/20) :=
  ⟨(claim_C5 (1/20) (3/2)).2.2.2 (by norm_num), (claim_C5 (1/20) (3/2)).2.1⟩

/--
Claim C6 (amended).  Scoring with the weight triple (0.8, 0.8, 0.8)
produces the same output as with (1/3, 1/3, 1/3); for any positive
weight triple whose sum is more than 1e-6 away from 1.0 each weight is
divided by the sum; and scaling all three weights by a common positive
factor leaves the score unchanged provided the scaled sum is also more
than 1e-6 away from 1.0 or equals exactly 1.0 (for factors that bring
the sum inside the 1e-6 tolerance at a value different from 1.0 the
scaled weights are used raw and the score can differ).
-/
theorem claim_C6 (tremor drift fatigue : List (String × ℚ)) (w_t w_d w_f c : ℚ) :
    compute_stability_score (cfg_w (8/10) (8/10) (8/10)) tremor drift fatigue =
      compute_stability_score (cfg_w (1/3) (1/3) (1/3)) tremor drift fatigue ∧
    (0 < w_t → 0 < w_d → 0 < w_f → 1/1000000 < |w_t + w_d + w_f - 1| →
      renorm_weights w_t w_d w_f =
        (w_t / (w_t + w_d + w_f), w_d / (w_t + w_d + w_f), w_f / (w_t + w_d + w_f))) ∧
    (0 < w_t → 0 < w_d → 0 < w_f → 1/1000000 < |w_t + w_d + w_f - 1| → 0 < c →
      (1/1000000 < |c * w_t + c * w_d + c * w_f - 1| ∨ c * (w_t + w_d + w_f) = 1) →
      compute_stability_score (cfg_w (c * w_t) (c * w_d) (c * w_f)) tremor drift fatigue =
        compute_stability_score (cfg_w w_t w_d w_f) tremor drift fatigue) := by
  refine ⟨?_, fun _ _ _ h4 => renorm_weights_far w_t w_d w_f h4, ?_⟩
  · have h8 : renorm_weights (8/10) (8/10) (8/10) = ((1 : ℚ)/3, (1 : ℚ)/3, (1 : ℚ)/3) := by
      rw [renorm_weights_far (8/10) (8/10) (8/10) (by rw [abs_of_pos] <;> norm_num)]
      norm_num
    have h3 : renorm_weights (1/3) (1/3) (1/3) = ((1 : ℚ)/3, (1 : ℚ)/3, (1 : ℚ)/3) := by
      rw [renorm_weights_near (1/3) (1/3) (1/3) (by norm_num)]
    simp only [compute_stability_score, normalize_tremor_cfg_w, normalize_drift_cfg_w,
      normalize_fatigue_cfg_w, cfg_w_wt, cfg_w_wd, cfg_w_wf, h8, h3]
  · intro h1 h2 h3 h4 hc hor
    have hs : (0 : ℚ) < w_t + w_d + w_f := by linarith
    have hsne : w_t + w_d + w_f ≠ 0 := ne_of_gt hs
    have hcne : c ≠ 0 := ne_of_gt hc
    have horig : renorm_weights w_t w_d w_f =
        (w_t / (w_t + w_d + w_f), w_d / (w_t + w_d + w_f), w_f / (w_t + w_d + w_f)) :=
      renorm_weights_far w_t w_d w_f h4
    have hscaled : renorm_weights (c * w_t) (c * w_d) (c * w_f) =
        (w_t / (w_t + w_d + w_f), w_d / (w_t + w_d + w_f), w_f / (w_t + w_d + w_f)) := by
      rcases hor with hA | hB
      · rw [renorm_weights_far _ _ _ hA]
        rw [show c * w_t + c * w_d + c * w_f = c * (w_t + w_d + w_f) from by ring]
        rw [mul_div_mul_left w_t _ hcne, mul_div_mul_left w_d _ hcne,
          mul_div_mul_left w_f _ hcne]
      · have hnear : ¬ (1/1000000 < |c * w_t + c * w_d + c * w_f - 1|) := by
          rw [show c * w_t + c * w_d + c * w_f = c * (w_t + w_d + w_f) from by ring, hB]
          norm_num
        rw [renorm_weights_near _ _ _ hnear]
        have hceq : c = 1 / (w_t + w_d + w_f) := by
          rw [eq_div_iff hsne]
          exact hB
        rw [hceq]
        simp only [Prod.mk.injEq]
        refine ⟨by ring, by ring, by ring⟩
    simp only [compute_stability_score, normalize_tremor_cfg_w, normalize_drift_cfg_w,
      normalize_fatigue_cfg_w, cfg_w_wt, cfg_w_wd, cfg_w_wf, hscaled, horig]

/--
Claim C6, counterexample to the original statement.  The positive weight
triple (0.6, 0.6, 0.6) has its sum more than 1e-6 away from 1.0, but
scaling it by the positive factor 2000001/3600000 (which lands the sum
at 1.0000005, inside the tolerance but different from 1) changes the
score.
-/
theorem claim_C6_counterexample :
    (0 : ℚ) < 2000001/3600000 ∧
    1/1000000 < |(3/5 : ℚ) + 3/5 + 3/5 - 1| ∧
    (compute_stability_score
        (cfg_w (2000001/3600000 * (3/5)) (2000001/3600000 * (3/5))
          (2000001/3600000 * (3/5)))
        [("THUMB", 1/40)] [("THUMB", 1/20)] [("THUMB", 3/2)]).1 ≠
      (compute_stability_score (cfg_w (3/5) (3/5) (3/5))
        [("THUMB", 1/40)] [("THUMB", 1/20)] [("THUMB", 3/2)]).1 := by
  refine ⟨by norm_num, by rw [abs_of_pos] <;> norm_num, ?_⟩
  norm_num [compute_stability_score, cfg_w, average_metric, normalize_tremor,
    normalize_drift, normalize_fatigue, renorm_weights, clamp01, min_def, max_def, abs]

/--
Claim C6, witness.  The 0.8-weights output equals the equal-thirds
output on a concrete input, and doubling the triple (0.6, 0.6, 0.6)
(both sums outside the tolerance) leaves the output unchanged.
-/
theorem claim_C6_witness :
    compute_stability_score (cfg_w (8/10) (8/10) (8/10)) [("THUMB", 1/40)] [] [] =
      compute_stability_score (cfg_w (1/3) (1/3) (1/3)) [("THUMB", 1/40)] [] [] ∧
    compute_stability_score (cfg_w (2 * (3/5)) (2 * (3/5)) (2 * (3/5)))
        [("THUMB", 1/40)] [] [] =
      compute_stability_score (cfg_w (3/5) (3/5) (3/5)) [("THUMB", 1/40)] [] [] := by
  refine ⟨(claim_C6 [("THUMB", 1/40)] [] [] (3/5) (3/5) (3/5) 2).1, ?_⟩
  exact (claim_C6 [("THUMB", 1/40)] [] [] (3/5) (3/5) (3/5) 2).2.2 (by norm_num)
    (by norm_num) (by norm_num) (by rw [abs_of_pos] <;> norm_num) (by norm_num)
    (Or.inl (by rw [abs_of_pos] <;> norm_num))

/--
Claim C8 (amended).  The scorer does not raise for a zero-or-negative
normalization maximum: the divisor is replaced by max(divisor, 1e-6) and
a clamped penalty is returned; the displacement deriver with an empty
tracked-finger set returns an empty map rather than raising; degenerate
inputs flow through to neutral values.
-/
theorem claim_C8 (cfg : ScoringConfig) (a : ℚ) (raw : RawTimeSeries)
    (base : BaselinePositions) :
    (cfg.TREMOR_MAX_EXPECTED ≤ 0 →
      normalize_tremor cfg a = clamp01 (a / (1/1000000))) ∧
    (cfg.DRIFT_MAX_EXPECTED ≤ 0 →
      normalize_drift cfg a = clamp01 (|a| / (1/1000000))) ∧
    (cfg.FATIGUE_MAX_EXPECTED ≤ 1 → normalize_fatigue cfg a =
      if a ≤ 1 then 0 else clamp01 ((a - 1) / (1/1000000))) ∧
    compute_displacement_time_series [] raw base = [] := by
  refine ⟨?_, ?_, ?_, rfl⟩
  · intro h
    have hm : max cfg.TREMOR_MAX_EXPECTED (1/1000000 : ℚ) = 1/1000000 :=
      max_eq_right (le_trans h (by norm_num))
    simp only [normalize_tremor, hm]
  · intro h
    have hm : max cfg.DRIFT_MAX_EXPECTED (1/1000000 : ℚ) = 1/1000000 :=
      max_eq_right (le_trans h (by norm_num))
    simp only [normalize_drift, hm]
  · intro h
    have hm : max (cfg.FATIGUE_MAX_EXPECTED - 1) (1/1000000 : ℚ) = 1/1000000 :=
      max_eq_right (by linarith)
    simp only [normalize_fatigue, hm]

/--
Claim C8, counterexample to the original statement.  With the tremor
maximum set to zero the scorer still returns a result (score 60 on a
concrete input) instead of raising, and the deriver with an empty
tracked set returns the empty map instead of raising.
-/
theorem claim_C8_counterexample :
    zero_tremor_config.TREMOR_MAX_EXPECTED = 0 ∧
    (compute_stability_score zero_tremor_config [("THUMB", 1)] [] []).1 = 60 ∧
    compute_displacement_time_series []
      [("THUMB", [((0 : ℚ), (0 : ℝ), (0 : ℝ))])] [("THUMB", ((0 : ℝ), (0 : ℝ)))] = [] := by
  refine ⟨rfl, ?_, rfl⟩
  norm_num [compute_stability_score, zero_tremor_config, average_metric, normalize_tremor,
    normalize_drift, normalize_fatigue, renorm_weights, clamp01, min_def, max_def, abs]

/--
Claim C8, witness.  With the zero tremor maximum the tremor penalty at
average 0.5 is the clamped ratio against 1e-6, and the deriver of an
empty tracked set returns the empty map.
-/
theorem claim_C8_witness :
    normalize_tremor zero_tremor_config (1/2) = clamp01 ((1/2) / (1/1000000)) ∧
    compute_displacement_time_series [] [] [] = [] :=
  ⟨(claim_C8 zero_tremor_config (1/2) [] []).1 (le_refl 0),
   (claim_C8 zero_tremor_config (1/2) [] []).2.2.2⟩

/--
Claim C10 (confirmed).  For every real-valued average and every
configuration — including zero or negative tremor/drift maxima and a
fatigue maximum at most 1 — each penalty-normalization function divides
by max(divisor, 1e-6), a quantity at least 1e-6 and hence never zero,
and returns a value in [0, 1].
-/
theorem claim_C10 (cfg : ScoringConfig) (a : ℚ) :
    1/1000000 ≤ max cfg.TREMOR_MAX_EXPECTED (1/1000000 : ℚ) ∧
    1/1000000 ≤ max cfg.DRIFT_MAX_EXPECTED (1/1000000 : ℚ) ∧
    1/1000000 ≤ max (cfg.FATIGUE_MAX_EXPECTED - 1) (1/1000000 : ℚ) ∧
    0 ≤ normalize_tremor cfg a ∧ normalize_tremor cfg a ≤ 1 ∧
    0 ≤ normalize_drift cfg a ∧ normalize_drift cfg a ≤ 1 ∧
    0 ≤ normalize_fatigue cfg a ∧ normalize_fatigue cfg a ≤ 1 :=
  ⟨le_max_right _ _, le_max_right _ _, le_max_right _ _,
   normalize_tremor_nonneg cfg a, normalize_tremor_le_one cfg a,
   normalize_drift_nonneg cfg a, normalize_drift_le_one cfg a,
   normalize_fatigue_nonneg cfg a, normalize_fatigue_le_one cfg a⟩

end HandStability
